import Mathlib

/-!
Shallow embedding of the presentation-assembly backend (Flask app under BE/):
the PPT storage module (`storage.py`), the deck renderer (`services/ppt_service.py`),
the outline generator (`services/groq.py`), the robots checker (`services/robots.py`)
and the HTTP handlers (`api/generate.py`, `api/ppt_management.py`,
`api/replace_image.py`, `api/upload_and_robots.py`).

Conventions of the embedding:
* Python dicts with a fixed key set become structures; a key that may be absent
  becomes an `Option` field.
* External capabilities (the Groq chat completion + JSON parser, the Pixabay
  search, the Supabase upload, the robots.txt fetch, wall-clock time) are
  passed in as explicit arguments, since the repository only consumes their
  results.
* The pptx byte serialization done by the external python-pptx library is
  modelled by the rendered slide structure it encodes (`PptBytes`); geometry,
  fonts and text wrapping are deterministic functions of the recorded fields
  and are abstracted away.
* `ppt_storage.get` returns the stored dict itself (no copy), so handlers that
  mutate it in place change the stored state immediately.  Handlers therefore
  return, besides the HTTP response, the list of successive storage states
  that are observable between storage-lock acquisitions.
-/

/-- RGB color triple, embedding `pptx.dml.color.RGBColor` values. -/
structure RGBColor where
  r : Nat
  g : Nat
  b : Nat
deriving DecidableEq, Repr

/-- One value of the class-level `PPTService.THEMES` dict: the four colors of a theme. -/
structure ThemeColors where
  bg_color : RGBColor
  title_color : RGBColor
  text_color : RGBColor
  accent_color : RGBColor
deriving DecidableEq, Repr

/-- The class-level theme table, a mutable Python class attribute shared by all
`PPTService` instances. -/
abbrev ThemeTable := List (String × ThemeColors)

/-- `PPTService.THEMES` from `services/ppt_service.py`, with the literal colors. -/
def THEMES : ThemeTable :=
  [("modern", ⟨⟨255, 255, 255⟩, ⟨31, 78, 121⟩, ⟨64, 64, 64⟩, ⟨0, 120, 215⟩⟩),
   ("dark", ⟨⟨30, 30, 30⟩, ⟨255, 255, 255⟩, ⟨220, 220, 220⟩, ⟨0, 120, 215⟩⟩),
   ("professional", ⟨⟨255, 255, 255⟩, ⟨68, 84, 106⟩, ⟨89, 89, 89⟩, ⟨192, 0, 0⟩⟩),
   ("business", ⟨⟨248, 249, 250⟩, ⟨33, 37, 41⟩, ⟨73, 80, 87⟩, ⟨0, 123, 255⟩⟩),
   ("academic", ⟨⟨255, 255, 255⟩, ⟨52, 58, 64⟩, ⟨73, 80, 87⟩, ⟨111, 66, 193⟩⟩),
   ("minimal", ⟨⟨255, 255, 255⟩, ⟨0, 0, 0⟩, ⟨100, 100, 100⟩, ⟨128, 128, 128⟩⟩),
   ("creative", ⟨⟨255, 250, 240⟩, ⟨220, 53, 69⟩, ⟨102, 102, 102⟩, ⟨255, 193, 7⟩⟩)]

/-- `self.THEMES.get(theme, self.THEMES['modern'])`: the theme dict the
constructor aliases ('modern' is always present in `THEMES`). -/
def lookupTheme (tbl : ThemeTable) (name : String) : ThemeColors :=
  match tbl.lookup name with
  | some t => t
  | none => ((tbl.lookup "modern").getD ⟨⟨0, 0, 0⟩, ⟨0, 0, 0⟩, ⟨0, 0, 0⟩, ⟨0, 0, 0⟩⟩)

/-- The key of the class-table entry the constructor's `self.theme` aliases. -/
def resolvedThemeKey (tbl : ThemeTable) (name : String) : String :=
  if (tbl.lookup name).isSome then name else "modern"

/-- Overwriting the value dict at a key of the class table (the effect of an
in-place mutation through an alias of that value). -/
def setThemeEntry (tbl : ThemeTable) (key : String) (v : ThemeColors) : ThemeTable :=
  tbl.map (fun e => if e.1 == key then (e.1, v) else e)

/-- Value of one hex digit, as accepted by Python `int(_, 16)`. -/
def hexDigitVal (c : Char) : Option Nat :=
  if '0' ≤ c ∧ c ≤ '9' then some (c.toNat - '0'.toNat)
  else if 'a' ≤ c ∧ c ≤ 'f' then some (c.toNat - 'a'.toNat + 10)
  else if 'A' ≤ c ∧ c ≤ 'F' then some (c.toNat - 'A'.toNat + 10)
  else none

/-- Python `int(s, 16)` on a string slice: fails (raises) on the empty slice or
on a non-hex character. -/
def parseHexSlice (cs : List Char) : Option Nat :=
  match cs with
  | [] => none
  | _ => cs.foldlM (fun acc c => (hexDigitVal c).map (fun v => 16 * acc + v)) 0

/-- `PPTService._hex_to_rgb`: strips leading '#' and parses the three
two-character slices; `none` models the `ValueError` raised on bad input. -/
def hex_to_rgb (s : String) : Option RGBColor := do
  let t := s.data.dropWhile (fun c => c == '#')
  let rv ← parseHexSlice (t.take 2)
  let gv ← parseHexSlice ((t.drop 2).take 2)
  let bv ← parseHexSlice ((t.drop 4).take 2)
  pure ⟨rv, gv, bv⟩

/-- `PPTService.__init__ (theme, brand_colors)`.

`self.theme = self.THEMES.get(theme, self.THEMES['modern'])` binds `self.theme`
to the *shared class-level dict* for the resolved theme name, and
`_apply_brand_colors` then assigns into that dict in place.  The result is the
instance's theme together with the class table after construction; `.error`
carries the table as already mutated when a bad hex color raises, since the
accent assignment precedes the title assignment. -/
def PPTService.init (tbl : ThemeTable) (themeName : String) (brand_colors : List String) :
    Except ThemeTable (ThemeColors × ThemeTable) :=
  let key := resolvedThemeKey tbl themeName
  let base := lookupTheme tbl themeName
  match brand_colors with
  | [] => Except.ok (base, tbl)
  | c0 :: rest =>
    match hex_to_rgb c0 with
    | none => Except.error tbl
    | some a =>
      let t1 : ThemeColors := { base with accent_color := a }
      let tbl1 := setThemeEntry tbl key t1
      match rest with
      | [] => Except.ok (t1, tbl1)
      | c1 :: _ =>
        match hex_to_rgb c1 with
        | none => Except.error tbl1
        | some tc =>
          let t2 : ThemeColors := { t1 with title_color := tc }
          Except.ok (t2, setThemeEntry tbl key t2)

/-- `chart_data` payload of a slide (categories/values used by `create_chart_slide`). -/
structure ChartData where
  categories : List String
  values : List Int
deriving DecidableEq, Repr

/-- One entry of `presentation_data['slides']`: the dict shape produced by the
model (or the fallback), with every key optional as in the `.get` accesses. -/
structure SlideData where
  slide_number : Option Nat
  index : Option Nat
  title : Option String
  content : Option (List String)
  bullets : Option (List String)
  image_keywords : Option String
  speaker_notes : Option String
  chart_data : Option ChartData
  chart_type : Option String
deriving DecidableEq, Repr

/-- The `presentation_data` dict: deck title, optional subtitle, slide list. -/
structure PresentationData where
  title : Option String
  subtitle : Option String
  slides : List SlideData
deriving DecidableEq, Repr

/-- `slide_data.get('slide_number') or slide_data.get('index', 0) + 1`
(`ppt_service.py`): Python `or` falls through on `None` and on `0`. -/
def slideNumOf (sd : SlideData) : Nat :=
  match sd.slide_number with
  | some n => if n = 0 then sd.index.getD 0 + 1 else n
  | none => sd.index.getD 0 + 1

/-- `slide_data.get('content') or slide_data.get('bullets', [])`: `or` falls
through on `None` and on the empty list. -/
def slideContentOf (sd : SlideData) : List String :=
  match sd.content with
  | some l => if l.isEmpty then sd.bullets.getD [] else l
  | none => sd.bullets.getD []

/-- One rendered slide of the output document, by its semantic payload
(layout kind, text placed on it, resolved image path, notes, theme colors). -/
inductive RSlide where
  | titleSlide (title : String) (subtitle : String) (colors : ThemeColors)
  | contentSlide (title : String) (content : List String) (image_path : Option String)
      (speaker_notes : String) (colors : ThemeColors)
  | chartSlide (title : String) (chart : ChartData) (chart_type : String) (colors : ThemeColors)
  | thankYouSlide (colors : ThemeColors)
deriving DecidableEq, Repr

/-- The saved pptx binary, modelled by the rendered slide sequence it encodes. -/
abbrev PptBytes := List RSlide

/-- `PPTService.generate_from_data(presentation_data, image_paths)`: one title
slide, one content/chart slide per entry of `presentation_data['slides']` in
order, one closing slide. -/
def generate_from_data (colors : ThemeColors) (pd : PresentationData)
    (image_paths : List (Nat × String)) : PptBytes :=
  let body := pd.slides.map (fun sd =>
    let n := slideNumOf sd
    let t := (sd.title).getD ("Slide " ++ toString n)
    match sd.chart_data with
    | some cd => RSlide.chartSlide t cd ((sd.chart_type).getD "bar") colors
    | none =>
        RSlide.contentSlide t (slideContentOf sd) (image_paths.lookup n)
          ((sd.speaker_notes).getD "") colors)
  RSlide.titleSlide ((pd.title).getD "Presentation") ((pd.subtitle).getD "") colors
    :: body ++ [RSlide.thankYouSlide colors]

/-- One image suggestion dict as built by `PixabayClient.get_image_suggestions`. -/
structure ImageSuggestion where
  id : String
  preview_url : Option String
  webformat_url : Option String
  large_url : Option String
  keywords : String
  user : String
  page_url : Option String
deriving DecidableEq, Repr, Inhabited

/-- One raw Pixabay API hit as consumed by `replace_image` (integer id,
`webformatURL`). -/
structure PixabayHit where
  id : Nat
  webformatURL : Option String
deriving DecidableEq, Repr

/-- One entry of the stored `slides` list (the `slides_response` dict shape
built in `api/generate.py`; `image_firebase_url` is only added later by
`format_slides_for_response`). -/
structure Slide where
  index : Nat
  title : String
  content : List String
  bullets : List String
  speaker_notes : String
  layout : String
  suggested_images : List ImageSuggestion
  image_url : Option String
  image_firebase_url : Option String
deriving DecidableEq, Repr, Inhabited

/-- The stored deck record (the `ppt_metadata` dict created in
`api/generate.py` plus the keys `PPTStorage.create` stamps).  The
`content_sources` entries are summarized as opaque labels and timestamps as
naturals, since no claim inspects their interior. -/
structure Record where
  topic : String
  theme : String
  slides : List Slide
  ppt_bytes : PptBytes
  image_urls : List (Nat × String)
  content_sources : List String
  user_id : String
  ppt_id : String
  generated_at : Nat
  updated_at : Nat
deriving DecidableEq, Repr

/-- The `PPTStorage._storage` dict: deck records keyed by UUID string. -/
abbrev Store := List (String × Record)

/-- `PPTStorage.get`: returns the stored record (by reference in Python). -/
def PPTStorage.get (st : Store) (ppt_id : String) : Option Record :=
  (st.find? (fun e => e.1 == ppt_id)).map Prod.snd

/-- In-place replacement of the record stored under a key: the effect of
mutating a record obtained (aliased) from `PPTStorage.get`, and also the
effect of `self._storage[ppt_id].update(...)`. -/
def storeModify (st : Store) (ppt_id : String) (f : Record → Record) : Store :=
  st.map (fun e => if e.1 == ppt_id then (e.1, f e.2) else e)

/-- The update dicts passed to `ppt_storage.update` by the two edit handlers
(`slides`/`ppt_bytes` from `update_slide`, `image_urls`/`ppt_bytes` from
`replace_image`). -/
structure StoreUpdates where
  slides : Option (List Slide)
  ppt_bytes : Option PptBytes
  image_urls : Option (List (Nat × String))
deriving Repr

/-- `self._storage[ppt_id].update(updates)` followed by the `updated_at` stamp. -/
def applyStoreUpdates (r : Record) (u : StoreUpdates) (now : Nat) : Record :=
  { r with
    slides := u.slides.getD r.slides
    ppt_bytes := u.ppt_bytes.getD r.ppt_bytes
    image_urls := u.image_urls.getD r.image_urls
    updated_at := now }

/-- `PPTStorage.update`: merge the updates into an existing record and refresh
`updated_at`; `False` when the id is unknown. -/
def PPTStorage.update (st : Store) (ppt_id : String) (u : StoreUpdates) (now : Nat) :
    Bool × Store :=
  if (PPTStorage.get st ppt_id).isSome then
    (true, storeModify st ppt_id (fun r => applyStoreUpdates r u now))
  else (false, st)

/-- `PPTStorage.delete`: remove the record if present. -/
def PPTStorage.delete (st : Store) (ppt_id : String) : Bool × Store :=
  if (PPTStorage.get st ppt_id).isSome then
    (true, st.filter (fun e => !(e.1 == ppt_id)))
  else (false, st)

/-- The JSON bodies (with HTTP status) the modelled endpoints return. -/
inductive ApiResponse where
  | meta (status : Nat) (ppt_id : String) (topic : String) (theme : String)
      (slides : List Slide) (generated_at : Nat) (download_url : String)
  | deleted (status : Nat) (success : Bool) (message : String)
  | robots (status : Nat) (url : String) (allowed : Bool) (message : String)
  | err (status : Nat) (error : String) (message : Option String) (code : Nat)
deriving DecidableEq, Repr

/-- Python truthiness of an optional string (absent and empty are falsy). -/
def truthyStr (o : Option String) : Bool :=
  match o with
  | none => false
  | some s => !(s == "")

/-- `format_slides_for_response` (`api/ppt_management.py`): copy each slide and
set its `image_url`/`image_firebase_url` when `image_urls` has an entry for its
1-based number. -/
def format_slides_for_response (slides : List Slide) (image_urls : List (Nat × String)) :
    List Slide :=
  slides.map (fun s =>
    match image_urls.lookup (s.index + 1) with
    | some u => { s with image_url := some u, image_firebase_url := some u }
    | none => s)

/-- The request body of `PATCH /ppt/<id>/slide/<i>`, all keys optional. -/
structure SlidePatch where
  title : Option String
  bullets : Option (List String)
  speaker_notes : Option String
deriving DecidableEq, Repr

/-- The three guarded in-place assignments of `update_slide` on one slide dict. -/
def applySlidePatch (s : Slide) (u : SlidePatch) : Slide :=
  { s with
    title := u.title.getD s.title
    bullets := u.bullets.getD s.bullets
    speaker_notes := u.speaker_notes.getD s.speaker_notes }

/-- `slides[slide_index][...] = ...`: patches the slide at the given position. -/
def patchSlideAt : List Slide → Nat → SlidePatch → List Slide
  | [], _, _ => []
  | s :: rest, 0, u => applySlidePatch s u :: rest
  | s :: rest, Nat.succ i, u => s :: patchSlideAt rest i u

/-- The `presentation_data` dict both edit handlers rebuild from the stored
slides before re-rendering. -/
def slidesToPresentationData (topic : String) (slides : List Slide) : PresentationData :=
  { title := some topic
    subtitle := none
    slides := slides.map (fun s =>
      { slide_number := some (s.index + 1)
        index := none
        title := some s.title
        content := some s.bullets
        bullets := none
        image_keywords := none
        speaker_notes := some s.speaker_notes
        chart_data := none
        chart_type := none }) }

/-- `PATCH /ppt/<ppt_id>/slide/<slide_index>` (`update_slide` in
`api/ppt_management.py`).

Returns the response together with the list of storage states observable
through `PPTStorage.get` while the handler runs: the dict `ppt_storage.get`
hands out is the stored record itself, so the three guarded slide-field
assignments mutate the stored state *before* the re-render, and
`ppt_storage.update` later writes the fresh `ppt_bytes`.  (The middle state
coalesces the per-field assignments into one step.)  `updates = none` models
`request.get_json()` returning `None` or a falsy empty dict. -/
def update_slide (tbl : ThemeTable) (st : Store) (ppt_id : String) (slide_index : Int)
    (updates : Option SlidePatch) (now : Nat) : ApiResponse × List Store :=
  match PPTStorage.get st ppt_id with
  | none => (ApiResponse.err 404 "Presentation not found" none 404, [st])
  | some ppt_data =>
    let slides := ppt_data.slides
    if slide_index < 0 ∨ (slides.length : Int) ≤ slide_index then
      (ApiResponse.err 400 "Slide index out of range" none 400, [st])
    else
      match updates with
      | none => (ApiResponse.err 400 "No updates provided" none 400, [st])
      | some u =>
        let idx := slide_index.toNat
        let slides2 := patchSlideAt slides idx u
        let stMid := storeModify st ppt_id (fun r => { r with slides := slides2 })
        let colors := lookupTheme tbl ppt_data.theme
        let pbytes :=
          generate_from_data colors (slidesToPresentationData ppt_data.topic slides2)
            ppt_data.image_urls
        let stFin :=
          (PPTStorage.update stMid ppt_id
            { slides := some slides2, ppt_bytes := some pbytes, image_urls := none } now).2
        let updated := (PPTStorage.get stFin ppt_id).getD ppt_data
        let rs := format_slides_for_response updated.slides updated.image_urls
        (ApiResponse.meta 200 updated.ppt_id updated.topic updated.theme rs
            updated.generated_at ("/api/v1/download/" ++ ppt_id),
          [st, stMid, stFin])

/-- `DELETE /ppt/<ppt_id>` (`delete_ppt` in `api/ppt_management.py`). -/
def delete_ppt (st : Store) (ppt_id : String) : ApiResponse × Store :=
  let d := PPTStorage.delete st ppt_id
  if d.1 then (ApiResponse.deleted 200 true "Presentation deleted", d.2)
  else (ApiResponse.err 404 "Presentation not found" none 404, d.2)

/-- The request body of `POST /replace-image`. -/
structure ReplaceImageRequest where
  ppt_id : Option String
  slide_index : Option Int
  pixabay_image_id : Option String
deriving DecidableEq, Repr

/-- `POST /replace-image` (`replace_image` in `api/replace_image.py`).

External capabilities appear as arguments: `pixabay_key` is whether
`PIXABAY_API_KEY` is set, `search_results` is what `pixabay.search_images`
would return for the keyword query, `upload_result` is the Supabase URL
`download_and_upload_image` would return (`none` = failure).  When the slide's
`suggested_images` list is empty and the id was not found there, the code
evaluates `slide.get('suggested_images', [{}])[0]` on the empty list and the
resulting `IndexError` is caught by the catch-all, yielding the 500 envelope.
When the image is found but `PIXABAY_API_KEY` is unset, `PixabayClient()`
raises, again yielding the 500 envelope.  As in `update_slide`, the stored
`image_urls` dict is mutated through the alias before the re-render. -/
def replace_image (tbl : ThemeTable) (st : Store) (body : Option ReplaceImageRequest)
    (pixabay_key : Bool) (search_results : List PixabayHit) (upload_result : Option String)
    (now : Nat) : ApiResponse × List Store :=
  match body with
  | none => (ApiResponse.err 400 "No data provided" none 400, [st])
  | some data =>
    if !(truthyStr data.ppt_id && data.slide_index.isSome && truthyStr data.pixabay_image_id)
    then
      (ApiResponse.err 400 "ppt_id, slide_index, and pixabay_image_id are required" none 400,
        [st])
    else
      let pid := data.ppt_id.getD ""
      let image_id := data.pixabay_image_id.getD ""
      let slide_index := data.slide_index.getD 0
      match PPTStorage.get st pid with
      | none => (ApiResponse.err 404 "Presentation not found" none 404, [st])
      | some ppt_data =>
        let slides := ppt_data.slides
        if slide_index < 0 ∨ (slides.length : Int) ≤ slide_index then
          (ApiResponse.err 400 "Slide index out of range" none 400, [st])
        else
          let slide := slides.getD slide_index.toNat default
          let fromSuggested :=
            (slide.suggested_images.find? (fun img => img.id == image_id)).bind
              (fun img => img.webformat_url)
          let searchNeeded := fromSuggested.isNone && pixabay_key
          if searchNeeded ∧ slide.suggested_images.isEmpty then
            (ApiResponse.err 500 "Failed to replace image" (some "list index out of range") 500,
              [st])
          else
            let image_url :=
              if searchNeeded then
                (search_results.find? (fun img => toString img.id == image_id)).bind
                  (fun img => img.webformatURL)
              else fromSuggested
            match image_url with
            | none => (ApiResponse.err 404 "Image not found" none 404, [st])
            | some _found_url =>
              if !pixabay_key then
                (ApiResponse.err 500 "Failed to replace image"
                    (some "PIXABAY_API_KEY is required. Set it in environment or pass as parameter.")
                    500,
                  [st])
              else
                match upload_result with
                | none =>
                  (ApiResponse.err 500 "Failed to upload image to Supabase" none 500, [st])
                | some supabase_url =>
                  let slide_num := slide_index.toNat + 1
                  let image_urls2 := 
                    if (ppt_data.image_urls.lookup slide_num).isSome then
                      ppt_data.image_urls.map
                        (fun e => if e.1 == slide_num then (e.1, supabase_url) else e)
                    else ppt_data.image_urls ++ [(slide_num, supabase_url)]
                  let stMid := storeModify st pid (fun r => { r with image_urls := image_urls2 })
                  let colors := lookupTheme tbl ppt_data.theme
                  let pbytes :=
                    generate_from_data colors
                      (slidesToPresentationData ppt_data.topic slides) image_urls2
                  let stFin :=
                    (PPTStorage.update stMid pid
                      { slides := none, ppt_bytes := some pbytes,
                        image_urls := some image_urls2 } now).2
                  let updated := (PPTStorage.get stFin pid).getD ppt_data
                  let rs := updated.slides.map (fun s =>
                    match updated.image_urls.lookup (s.index + 1) with
                    | some u => { s with image_url := some u }
                    | none => s)
                  (ApiResponse.meta 200 updated.ppt_id updated.topic updated.theme rs
                      updated.generated_at ("/api/v1/download/" ++ pid),
                    [st, stMid, stFin])

/-- Outcome of the Groq chat completion plus `json.loads` as observed by
`generate_presentation_structure`: the call raised, the content did not parse,
or it parsed to a presentation dict. -/
inductive ModelResult where
  | transportFailure
  | unparsable
  | parsed (data : PresentationData)
deriving DecidableEq, Repr

/-- Whether the generation attempt ended in one of the two caught failure modes. -/
def generationFailed (r : ModelResult) : Bool :=
  match r with
  | ModelResult.transportFailure => true
  | ModelResult.unparsable => true
  | ModelResult.parsed _ => false

/-- The slide dict built by `GroqClient._get_fallback_structure` for 1-based
slide number `i`. -/
def fallbackSlide (topic : String) (i : Nat) : SlideData :=
  { slide_number := some i
    index := none
    title := some ("Slide " ++ toString i ++ ": " ++ topic)
    content := some
      ["Point 1 about " ++ topic, "Point 2 about " ++ topic, "Point 3 about " ++ topic]
    bullets := none
    image_keywords := some topic
    speaker_notes := some ("Discuss slide " ++ toString i ++ " about " ++ topic)
    chart_data := none
    chart_type := none }

/-- `GroqClient._get_fallback_structure(topic, num_slides)`: slides for
`i in range(1, num_slides + 1)`. -/
def get_fallback_structure (topic : String) (num_slides : Nat) : PresentationData :=
  { title := some topic
    subtitle := none
    slides := (List.range num_slides).map (fun k => fallbackSlide topic (k + 1)) }

/-- `GroqClient.generate_presentation_structure(topic, num_slides)`: returns the
parsed model output unchanged, or the fallback structure when the API call or
the JSON parse failed. -/
def generate_presentation_structure (topic : String) (num_slides : Nat) (r : ModelResult) :
    PresentationData :=
  match r with
  | ModelResult.parsed d => d
  | _ => get_fallback_structure topic num_slides

/-- Characters the storage-path sanitization keeps: `[a-zA-Z0-9_-]`. -/
def isAllowedChar (c : Char) : Bool :=
  c.isAlphanum || c == '_' || c == '-'

/-- `topic.replace(' ', '_')` (`api/generate.py` / `api/replace_image.py`). -/
def replaceSpaces (s : List Char) : List Char :=
  s.map (fun c => if c == ' ' then '_' else c)

/-- `re.sub(r'[^a-zA-Z0-9_-]', '_', topic.replace(' ', '_'))`: the sanitized
topic segment of a storage path. -/
def safe_topic (s : List Char) : List Char :=
  (replaceSpaces s).map (fun c => if isAllowedChar c then c else '_')

/-- `slide.get('slide_number', slide.get('index', 0) + 1)` as used in
`api/generate.py` when building the response slides (`dict.get` with a
default, unlike the `or`-based fallback inside the renderer). -/
def responseSlideNum (sd : SlideData) : Nat :=
  sd.slide_number.getD (sd.index.getD 0 + 1)

/-- The `slides_response` list built by `generate_ppt` in `api/generate.py`
from the AI-produced `presentation_data`: these dicts become the stored
`slides` and the numbering every later edit addresses.  `image_urls` and the
per-slide suggestion lists come from the enrichment step. -/
def formatSlidesResponse (pd : PresentationData) (image_urls : List (Nat × String))
    (suggestions : List (Nat × List ImageSuggestion)) : List Slide :=
  pd.slides.map (fun sd =>
    let n := responseSlideNum sd
    { index := n - 1
      title := sd.title.getD ""
      content := sd.content.getD []
      bullets := sd.content.getD []
      speaker_notes := sd.speaker_notes.getD ""
      layout := "content"
      suggested_images := (suggestions.lookup n).getD []
      image_url := image_urls.lookup n
      image_firebase_url := none })

/-- Outcome of `RobotFileParser.read()` on the site's robots.txt, the external
fetch+parse capability: either the read raised (fetch failure), or it yields
the parser's `can_fetch` decision function over (user agent, url). -/
inductive RobotsFetch where
  | failure (msg : String)
  | success (can_fetch : String → String → Bool)

/-- `check_robots_txt(url, user_agent)` from `services/robots.py`. -/
def check_robots_txt (fetch : RobotsFetch) (url : String) (user_agent : String) :
    Bool × String :=
  match fetch with
  | RobotsFetch.failure msg => (false, "Could not access robots.txt: " ++ msg)
  | RobotsFetch.success can_fetch =>
    if can_fetch user_agent url then (true, "Scraping is allowed by robots.txt")
    else (false, "Scraping is disallowed by robots.txt")

/-- `GET /robots-check` (`robots_check` in `api/upload_and_robots.py`):
validates the `url` query parameter and reports `check_robots_txt`'s verdict
for the default user agent. -/
def robots_check (fetch : RobotsFetch) (url : Option String) : ApiResponse :=
  if !truthyStr url then
    ApiResponse.err 400 "URL parameter is required" none 400
  else
    let u := url.getD ""
    if !("http://".data.isPrefixOf u.data || "https://".data.isPrefixOf u.data) then
      ApiResponse.err 400 "Invalid URL format. Must start with http:// or https://" none 400
    else
      let res := check_robots_txt fetch u "*"
      ApiResponse.robots 200 u res.1 res.2

/-- A concrete stored slide, as the generation pipeline would produce it. -/
def sampleSlide : Slide :=
  { index := 0
    title := "Old title"
    content := ["First point"]
    bullets := ["First point"]
    speaker_notes := "Notes"
    layout := "content"
    suggested_images := []
    image_url := none
    image_firebase_url := none }

/-- A concrete stored deck in the prior Stable state: its `ppt_bytes` are the
fresh render of its slides, as the generation pipeline guarantees. -/
def sampleRecord : Record :=
  { topic := "T"
    theme := "modern"
    slides := [sampleSlide]
    ppt_bytes :=
      generate_from_data (lookupTheme THEMES "modern")
        (slidesToPresentationData "T" [sampleSlide]) []
    image_urls := []
    content_sources := ["wikipedia"]
    user_id := "anonymous"
    ppt_id := "p1"
    generated_at := 3
    updated_at := 3 }

/-- A concrete storage table holding only `sampleRecord`. -/
def sampleStore : Store := [("p1", sampleRecord)]

/-- A concrete PATCH body that edits only the slide title. -/
def samplePatch : SlidePatch :=
  { title := some "New title", bullets := none, speaker_notes := none }

/-- The stored record after the in-place slide mutation of `update_slide` but
before `ppt_storage.update` has written the fresh `ppt_bytes`. -/
def sampleMidRecord : Record :=
  { sampleRecord with slides := [applySlidePatch sampleSlide samplePatch] }

/-- A parsed model response with three slides (a response disobeying a
five-slide request). -/
def threeSlideResponse : PresentationData :=
  { title := some "T"
    subtitle := none
    slides :=
      [{ slide_number := some 1, index := none, title := some "A"
         content := some ["a"], bullets := none, image_keywords := none
         speaker_notes := none, chart_data := none, chart_type := none },
       { slide_number := some 2, index := none, title := some "B"
         content := some ["b"], bullets := none, image_keywords := none
         speaker_notes := none, chart_data := none, chart_type := none },
       { slide_number := some 3, index := none, title := some "C"
         content := some ["c"], bullets := none, image_keywords := none
         speaker_notes := none, chart_data := none, chart_type := none }] }

/-- A parsed model response whose two slides both carry `slide_number = 2`. -/
def duplicateNumberResponse : PresentationData :=
  { title := some "T"
    subtitle := none
    slides :=
      [{ slide_number := some 2, index := none, title := some "A"
         content := some ["a"], bullets := none, image_keywords := none
         speaker_notes := none, chart_data := none, chart_type := none },
       { slide_number := some 2, index := none, title := some "B"
         content := some ["b"], bullets := none, image_keywords := none
         speaker_notes := none, chart_data := none, chart_type := none }] }

theorem get_storeModify (st : Store) (id : String) (f : Record → Record) :
    PPTStorage.get (storeModify st id f) id = (PPTStorage.get st id).map f := by
  induction st with
  | nil => rfl
  | cons e rest ih =>
    show PPTStorage.get ((if e.1 == id then (e.1, f e.2) else e) :: storeModify rest id f) id
        = (PPTStorage.get (e :: rest) id).map f
    cases heq : (e.1 == id) with
    | true =>
      rw [if_pos rfl]
      simp only [PPTStorage.get, List.find?_cons]
      simp [heq]
    | false =>
      rw [if_neg (by simp)]
      simp only [PPTStorage.get, List.find?_cons] at ih ⊢
      simp only [heq]
      simpa [heq] using ih

theorem get_filter_out (st : Store) (id : String) :
    PPTStorage.get (st.filter (fun e => !(e.1 == id))) id = none := by
  induction st with
  | nil => rfl
  | cons e rest ih =>
    cases heq : (e.1 == id) with
    | true =>
      have hstep : (e :: rest).filter (fun e => !(e.1 == id))
          = rest.filter (fun e => !(e.1 == id)) := by
        simp [List.filter_cons, heq]
      rw [hstep]; exact ih
    | false =>
      have hstep : (e :: rest).filter (fun e => !(e.1 == id))
          = e :: rest.filter (fun e => !(e.1 == id)) := by
        simp [List.filter_cons, heq]
      rw [hstep]
      simp only [PPTStorage.get, List.find?_cons] at ih ⊢
      simp only [heq]
      exact ih

theorem patchSlideAt_length (l : List Slide) (i : Nat) (u : SlidePatch) :
    (patchSlideAt l i u).length = l.length := by
  induction l generalizing i with
  | nil => rfl
  | cons s rest ih =>
    cases i with
    | zero => simp [patchSlideAt]
    | succ j => simp [patchSlideAt, ih]

theorem patchSlideAt_get?_ne (l : List Slide) (i j : Nat) (u : SlidePatch) (h : j ≠ i) :
    (patchSlideAt l i u).get? j = l.get? j := by
  induction l generalizing i j with
  | nil => rfl
  | cons s rest ih =>
    cases i with
    | zero =>
      cases j with
      | zero => exact absurd rfl h
      | succ k => simp [patchSlideAt]
    | succ i2 =>
      cases j with
      | zero => simp [patchSlideAt]
      | succ k =>
        simp only [patchSlideAt, List.get?_cons_succ]
        exact ih i2 k (fun hh => h (by omega))

theorem patchSlideAt_get?_eq (l : List Slide) (i : Nat) (u : SlidePatch) :
    (patchSlideAt l i u).get? i = (l.get? i).map (fun s => applySlidePatch s u) := by
  induction l generalizing i with
  | nil => rfl
  | cons s rest ih =>
    cases i with
    | zero => rfl
    | succ j => simpa [patchSlideAt] using ih j

/-- C6: the storage-path sanitization maps every character outside
`[A-Za-z0-9_-]` to an underscore, so the sanitized topic segment contains only
characters from that set; in particular the topic "AI & ML: 2024!" sanitizes
to "AI___ML__2024_". -/
theorem c6_sanitization :
    (∀ s : List Char, (safe_topic s).all isAllowedChar = true) ∧
    safe_topic ("AI & ML: 2024!".data) = ("AI___ML__2024_".data) := by
  constructor
  · intro s
    apply List.all_eq_true.2
    intro c hc
    simp only [safe_topic, List.mem_map] at hc
    obtain ⟨a, -, rfl⟩ := hc
    by_cases h : isAllowedChar a = true
    · rw [if_pos h]; exact h
    · rw [if_neg h]; decide
  · rfl

/-- C8: delete is idempotent-to-read: the first delete of an existing deck
returns success, every subsequent delete of the same id returns not-found (the
store is unchanged by it, so this persists), and after a successful delete
every get of that id reports not-found. -/
theorem c8_delete_idempotent (st : Store) (id : String) (r : Record)
    (h : PPTStorage.get st id = some r) :
    ∃ st2,
      delete_ppt st id = (ApiResponse.deleted 200 true "Presentation deleted", st2) ∧
      delete_ppt st2 id = (ApiResponse.err 404 "Presentation not found" none 404, st2) ∧
      PPTStorage.get st2 id = none := by
  refine ⟨st.filter (fun e => !(e.1 == id)), ?_, ?_, get_filter_out st id⟩
  · unfold delete_ppt PPTStorage.delete
    rw [h]
    simp
  · unfold delete_ppt PPTStorage.delete
    rw [get_filter_out st id]
    simp

/-- Witness for C8 at a concrete one-deck store. -/
theorem c8_delete_idempotent_witness :
    ∃ st2,
      delete_ppt sampleStore "p1" = (ApiResponse.deleted 200 true "Presentation deleted", st2) ∧
      delete_ppt st2 "p1" = (ApiResponse.err 404 "Presentation not found" none 404, st2) ∧
      PPTStorage.get st2 "p1" = none :=
  c8_delete_idempotent sampleStore "p1" sampleRecord rfl

/-- C9: the robots check is fail-closed: when the site's robots.txt disallows
the URL for the checked user agent the result is allowed = false, and when
robots.txt cannot be fetched the result is also allowed = false — both at the
`check_robots_txt` level and through the `/robots-check` endpoint. -/
theorem c9_robots_fail_closed (u msg : String) (f : String → String → Bool)
    (hu : ("http://".data.isPrefixOf u.data || "https://".data.isPrefixOf u.data) = true)
    (hdeny : f "*" u = false) :
    (check_robots_txt (RobotsFetch.failure msg) u "*").1 = false ∧
    (check_robots_txt (RobotsFetch.success f) u "*").1 = false ∧
    robots_check (RobotsFetch.failure msg) (some u)
      = ApiResponse.robots 200 u false ("Could not access robots.txt: " ++ msg) ∧
    robots_check (RobotsFetch.success f) (some u)
      = ApiResponse.robots 200 u false "Scraping is disallowed by robots.txt" := by
  have hne : u ≠ "" := by
    intro he
    subst he
    exact absurd hu (by decide)
  have hne2 : (u == "") = false := by
    simpa using hne
  refine ⟨rfl, ?_, ?_, ?_⟩
  · simp [check_robots_txt, hdeny]
  · simp [robots_check, truthyStr, hne2, hu, check_robots_txt]
  · simp [robots_check, truthyStr, hne2, hu, check_robots_txt, hdeny]

/-- Witness for C9 at a concrete URL, fetch failure and an all-denying parser. -/
theorem c9_robots_fail_closed_witness :
    (check_robots_txt (RobotsFetch.failure "timed out") "https://example.com/page" "*").1
        = false ∧
    (check_robots_txt (RobotsFetch.success (fun _ _ => false)) "https://example.com/page" "*").1
        = false ∧
    robots_check (RobotsFetch.failure "timed out") (some "https://example.com/page")
      = ApiResponse.robots 200 "https://example.com/page" false
          ("Could not access robots.txt: " ++ "timed out") ∧
    robots_check (RobotsFetch.success (fun _ _ => false)) (some "https://example.com/page")
      = ApiResponse.robots 200 "https://example.com/page" false
          "Scraping is disallowed by robots.txt" :=
  c9_robots_fail_closed "https://example.com/page" "timed out" (fun _ _ => false)
    (by decide) rfl

/-- C2 (code-bug exhibit): `PPTService.__init__` aliases the class-level
`THEMES` dict and `_apply_brand_colors` assigns into it, so constructing one
service with brand colors changes the colors every later service instance
renders with for the same theme name: after a request with brand color
"#FF0000", a plain `PPTService(theme='modern')` gets accent (255, 0, 0)
instead of the 'modern' accent (0, 120, 215) — rendering is not a pure
function of the per-request inputs. -/
theorem c2_brand_colors_leak :
    ∃ theme1 tbl1 theme2 tbl2,
      PPTService.init THEMES "modern" ["#FF0000"] = Except.ok (theme1, tbl1) ∧
      PPTService.init tbl1 "modern" [] = Except.ok (theme2, tbl2) ∧
      theme2.accent_color = ⟨255, 0, 0⟩ ∧
      (lookupTheme THEMES "modern").accent_color = ⟨0, 120, 215⟩ ∧
      theme2.accent_color ≠ (lookupTheme THEMES "modern").accent_color :=
  ⟨_, _, _, _, rfl, rfl, rfl, rfl, by decide⟩

/-- C4 (counterexample): for topic "T" and one requested slide, the fallback
outline's first slide is not titled "Section 1: T" (it is "Slide 1: T"). -/
theorem c4_fallback_title_counterexample :
    ¬ (((generate_presentation_structure "T" 1 ModelResult.transportFailure).slides.get? 0).bind
        (fun sd => sd.title) = some "Section 1: T") := by
  decide

/-- C4 (amended): when the model call fails or its response does not parse,
the generator returns the deterministic fallback outline — exactly
`num_slides` slides, slide i titled "Slide i: {topic}" (not "Section i"),
each with three generic bullets — so the pipeline never aborts on generator
failure. -/
theorem c4_fallback_amended (topic : String) (n : Nat) (r : ModelResult)
    (h : generationFailed r = true) :
    (generate_presentation_structure topic n r).slides.length = n ∧
    ∀ i, i < n →
      (generate_presentation_structure topic n r).slides.get? i
          = some (fallbackSlide topic (i + 1)) ∧
      (fallbackSlide topic (i + 1)).title
          = some ("Slide " ++ toString (i + 1) ++ ": " ++ topic) ∧
      (slideContentOf (fallbackSlide topic (i + 1))).length = 3 := by
  have hgen : generate_presentation_structure topic n r = get_fallback_structure topic n := by
    cases r with
    | transportFailure => rfl
    | unparsable => rfl
    | parsed d => simp [generationFailed] at h
  rw [hgen]
  constructor
  · simp [get_fallback_structure]
  · intro i hi
    refine ⟨?_, rfl, rfl⟩
    simp only [get_fallback_structure]
    rw [List.get?_eq_getElem?, List.getElem?_map, List.getElem?_range hi]
    rfl

/-- Witness for C4 at topic "T", two requested slides, an unparsable response. -/
theorem c4_fallback_amended_witness :
    (generate_presentation_structure "T" 2 ModelResult.unparsable).slides.length = 2 ∧
    ∀ i, i < 2 →
      (generate_presentation_structure "T" 2 ModelResult.unparsable).slides.get? i
          = some (fallbackSlide "T" (i + 1)) ∧
      (fallbackSlide "T" (i + 1)).title
          = some ("Slide " ++ toString (i + 1) ++ ": " ++ "T") ∧
      (slideContentOf (fallbackSlide "T" (i + 1))).length = 3 :=
  c4_fallback_amended "T" 2 ModelResult.unparsable rfl

/-- C5 (counterexample): a parsed response whose two slides both carry
`slide_number = 2` is stored with indices [1, 1], not renumbered to the
positional [0, 1]: the numbering consumed downstream is neither contiguous
nor matching array position. -/
theorem c5_numbering_counterexample :
    (formatSlidesResponse duplicateNumberResponse [] []).map Slide.index = [1, 1] ∧
    ¬ ((formatSlidesResponse duplicateNumberResponse [] []).map Slide.index = [0, 1]) :=
  ⟨rfl, by decide⟩

/-- C5 (amended): the pipeline trusts the model's `slide_number` field rather
than renumbering: each stored slide's `index` is the model-supplied
`slide_number - 1` when the field is present (defaulting to the absent
`index` field plus one otherwise), so mismatched model numbering propagates
downstream unchanged. -/
theorem c5_numbering_amended (pd : PresentationData) (image_urls : List (Nat × String))
    (sugs : List (Nat × List ImageSuggestion)) :
    (formatSlidesResponse pd image_urls sugs).map Slide.index
      = pd.slides.map (fun sd => responseSlideNum sd - 1) := by
  simp [formatSlidesResponse, List.map_map]

/-- C3 (counterexample): with five slides requested but a parsed model
response carrying only three entries, the rendered deck has 1 + 3 + 1 = 5
slides, not 1 + 5 + 1: nothing enforces that a successfully parsed response
has the requested entry count. -/
theorem c3_model_count_counterexample :
    (generate_from_data (lookupTheme THEMES "modern")
        (generate_presentation_structure "T" 5 (ModelResult.parsed threeSlideResponse))
        []).length ≠ 1 + 5 + 1 := by
  decide

/-- C3 (amended): the rendered deck's slide count is always 1 (title) + E
(one content or chart slide per outline entry, in order) + 1 (closing), where
E is the entry count of the structure actually rendered; when generation
failed, the fallback structure has exactly `num_slides` entries, so the count
is then 1 + num_slides + 1.  The count equals 1 + requested + 1 on the
success path only when the model obeyed the requested count. -/
theorem c3_slide_count_amended (colors : ThemeColors) (topic : String) (n : Nat)
    (imgs : List (Nat × String)) (r : ModelResult)
    (h : generationFailed r = true) :
    (∀ pd : PresentationData,
        (generate_from_data colors pd imgs).length = 1 + pd.slides.length + 1) ∧
    (generate_from_data colors (generate_presentation_structure topic n r) imgs).length
      = 1 + n + 1 := by
  have hlen : ∀ pd : PresentationData,
      (generate_from_data colors pd imgs).length = 1 + pd.slides.length + 1 := by
    intro pd
    simp [generate_from_data]
    omega
  refine ⟨hlen, ?_⟩
  have hgen : generate_presentation_structure topic n r = get_fallback_structure topic n := by
    cases r with
    | transportFailure => rfl
    | unparsable => rfl
    | parsed d => simp [generationFailed] at h
  rw [hgen, hlen]
  simp [get_fallback_structure]

/-- Witness for C3 at a concrete theme, topic and failed generation. -/
theorem c3_slide_count_amended_witness :
    (∀ pd : PresentationData,
        (generate_from_data (lookupTheme THEMES "modern") pd []).length
          = 1 + pd.slides.length + 1) ∧
    (generate_from_data (lookupTheme THEMES "modern")
        (generate_presentation_structure "T" 3 ModelResult.transportFailure) []).length
      = 1 + 3 + 1 :=
  c3_slide_count_amended (lookupTheme THEMES "modern") "T" 3 [] ModelResult.transportFailure rfl

/-- C1 (code-bug exhibit): `update_slide` obtains the stored record by
reference and applies the slide edit to it in place before re-rendering, so
the storage passes through an observable state (the second entry of the
handler's state trace) in which `PPTStorage.get` returns the deck with the
edited slides but the pre-edit `ppt_bytes` — an edited-but-not-re-rendered
state, equal neither to the prior stable state nor to a state whose binary is
the fresh render of its own slides.  The PATCH transition is therefore not
atomic from a reader's perspective. -/
theorem c1_intermediate_state_exposed :
    (update_slide THEMES sampleStore "p1" 0 (some samplePatch) 7).2.get? 1
        = some [("p1", sampleMidRecord)] ∧
    PPTStorage.get [("p1", sampleMidRecord)] "p1" = some sampleMidRecord ∧
    sampleMidRecord.slides = [applySlidePatch sampleSlide samplePatch] ∧
    sampleMidRecord.ppt_bytes = sampleRecord.ppt_bytes ∧
    sampleMidRecord ≠ sampleRecord ∧
    sampleMidRecord.ppt_bytes ≠
      generate_from_data (lookupTheme THEMES "modern")
        (slidesToPresentationData sampleMidRecord.topic sampleMidRecord.slides)
        sampleMidRecord.image_urls :=
  ⟨rfl, rfl, rfl, rfl, by decide, by decide⟩

/-- C7: for an existing deck, a slide-edit (PATCH) or image-replace request
whose slide index is out of range (negative, or at least the deck's slide
count) returns the 400 error envelope — not 500 and not a silent no-op — and
leaves the deck unchanged (the observable state trace is just the initial
store). -/
theorem c7_out_of_range_rejected (tbl : ThemeTable) (st : Store) (id : String) (r : Record)
    (idx : Int) (u : Option SlidePatch) (now : Nat) (iid : String)
    (key : Bool) (hits : List PixabayHit) (upl : Option String)
    (hget : PPTStorage.get st id = some r)
    (hrange : idx < 0 ∨ (r.slides.length : Int) ≤ idx)
    (hid : id ≠ "") (hiid : iid ≠ "") :
    update_slide tbl st id idx u now
      = (ApiResponse.err 400 "Slide index out of range" none 400, [st]) ∧
    replace_image tbl st (some ⟨some id, some idx, some iid⟩) key hits upl now
      = (ApiResponse.err 400 "Slide index out of range" none 400, [st]) := by
  constructor
  · simp only [update_slide, hget]
    rw [if_pos hrange]
  · have hb1 : truthyStr (some id) = true := by simp [truthyStr, hid]
    have hb2 : truthyStr (some iid) = true := by simp [truthyStr, hiid]
    simp only [replace_image, hb1, hb2, Option.isSome_some, Bool.and_true, Bool.true_and,
      Bool.and_self, Bool.not_true, Bool.false_eq_true, if_false, Option.getD_some, hget]
    rw [if_pos hrange]

/-- Witness for C7: index 5 on the one-slide sample deck is rejected with 400
by both handlers and the store is untouched. -/
theorem c7_out_of_range_rejected_witness :
    update_slide THEMES sampleStore "p1" 5 none 7
      = (ApiResponse.err 400 "Slide index out of range" none 400, [sampleStore]) ∧
    replace_image THEMES sampleStore (some ⟨some "p1", some 5, some "12345"⟩) false [] none 7
      = (ApiResponse.err 400 "Slide index out of range" none 400, [sampleStore]) :=
  c7_out_of_range_rejected THEMES sampleStore "p1" sampleRecord 5 none 7 "12345" false [] none
    rfl (Or.inr (by decide)) (by decide) (by decide)

/-- C10: a successful slide-edit (PATCH) writes only `slides`, `ppt_bytes` and
`updated_at` of the stored record: `topic`, `theme`, `image_urls`,
`content_sources`, `user_id`, `ppt_id` and `generated_at` are unchanged in the
final stored state, and within `slides` only the addressed index's supplied
fields (title, bullets, speaker_notes) differ from their prior values — every
other slide and every unsupplied or extra field of the addressed slide is
unchanged. -/
theorem c10_update_slide_frame (tbl : ThemeTable) (st : Store) (id : String) (r : Record)
    (idx : Nat) (u : SlidePatch) (now : Nat)
    (hget : PPTStorage.get st id = some r)
    (hidx : idx < r.slides.length) :
    ∃ r2,
      PPTStorage.get ((update_slide tbl st id (idx : Int) (some u) now).2.getLastD st) id
        = some r2 ∧
      r2.topic = r.topic ∧ r2.theme = r.theme ∧ r2.image_urls = r.image_urls ∧
      r2.content_sources = r.content_sources ∧ r2.user_id = r.user_id ∧
      r2.ppt_id = r.ppt_id ∧ r2.generated_at = r.generated_at ∧
      r2.slides.length = r.slides.length ∧
      (∀ j, j ≠ idx → r2.slides.get? j = r.slides.get? j) ∧
      r2.slides.get? idx = (r.slides.get? idx).map (fun s => applySlidePatch s u) ∧
      (∀ s : Slide,
        (applySlidePatch s u).index = s.index ∧
        (applySlidePatch s u).content = s.content ∧
        (applySlidePatch s u).layout = s.layout ∧
        (applySlidePatch s u).suggested_images = s.suggested_images ∧
        (applySlidePatch s u).image_url = s.image_url ∧
        (applySlidePatch s u).image_firebase_url = s.image_firebase_url ∧
        (u.title = none → (applySlidePatch s u).title = s.title) ∧
        (u.bullets = none → (applySlidePatch s u).bullets = s.bullets) ∧
        (u.speaker_notes = none → (applySlidePatch s u).speaker_notes = s.speaker_notes) ∧
        (∀ v, u.title = some v → (applySlidePatch s u).title = v) ∧
        (∀ v, u.bullets = some v → (applySlidePatch s u).bullets = v) ∧
        (∀ v, u.speaker_notes = some v → (applySlidePatch s u).speaker_notes = v)) := by
  have hcond : ¬((idx : Int) < 0 ∨ (r.slides.length : Int) ≤ (idx : Int)) := by omega
  have hmid : PPTStorage.get
        (storeModify st id (fun r0 => { r0 with slides := patchSlideAt r.slides idx u })) id
      = some { r with slides := patchSlideAt r.slides idx u } := by
    rw [get_storeModify, hget]
    rfl
  refine ⟨{ r with
      slides := patchSlideAt r.slides idx u
      ppt_bytes :=
        generate_from_data (lookupTheme tbl r.theme)
          (slidesToPresentationData r.topic (patchSlideAt r.slides idx u)) r.image_urls
      updated_at := now }, ?_, rfl, rfl, rfl, rfl, rfl, rfl, rfl,
    patchSlideAt_length r.slides idx u, ?_, ?_, ?_⟩
  · simp only [update_slide, hget]
    rw [if_neg hcond]
    simp only [PPTStorage.update, Int.toNat_ofNat, hmid, Option.isSome_some, if_true,
      List.getLastD_cons, List.getLastD_nil]
    rw [get_storeModify, hmid]
    rfl
  · intro j hj
    exact patchSlideAt_get?_ne r.slides idx j u hj
  · exact patchSlideAt_get?_eq r.slides idx u
  · intro s
    refine ⟨rfl, rfl, rfl, rfl, rfl, rfl, ?_, ?_, ?_, ?_, ?_, ?_⟩
    · intro h0; simp [applySlidePatch, h0]
    · intro h0; simp [applySlidePatch, h0]
    · intro h0; simp [applySlidePatch, h0]
    · intro v hv; simp [applySlidePatch, hv]
    · intro v hv; simp [applySlidePatch, hv]
    · intro v hv; simp [applySlidePatch, hv]

/-- Witness for C10: a title-only PATCH on slide 0 of the sample deck. -/
theorem c10_update_slide_frame_witness :
    ∃ r2,
      PPTStorage.get
          ((update_slide THEMES sampleStore "p1" ((0 : Nat) : Int)
              (some samplePatch) 7).2.getLastD sampleStore) "p1"
        = some r2 ∧
      r2.topic = sampleRecord.topic ∧ r2.theme = sampleRecord.theme ∧
      r2.image_urls = sampleRecord.image_urls ∧
      r2.content_sources = sampleRecord.content_sources ∧
      r2.user_id = sampleRecord.user_id ∧
      r2.ppt_id = sampleRecord.ppt_id ∧ r2.generated_at = sampleRecord.generated_at ∧
      r2.slides.length = sampleRecord.slides.length ∧
      (∀ j, j ≠ 0 → r2.slides.get? j = sampleRecord.slides.get? j) ∧
      r2.slides.get? 0
        = (sampleRecord.slides.get? 0).map (fun s => applySlidePatch s samplePatch) ∧
      (∀ s : Slide,
        (applySlidePatch s samplePatch).index = s.index ∧
        (applySlidePatch s samplePatch).content = s.content ∧
        (applySlidePatch s samplePatch).layout = s.layout ∧
        (applySlidePatch s samplePatch).suggested_images = s.suggested_images ∧
        (applySlidePatch s samplePatch).image_url = s.image_url ∧
        (applySlidePatch s samplePatch).image_firebase_url = s.image_firebase_url ∧
        (samplePatch.title = none → (applySlidePatch s samplePatch).title = s.title) ∧
        (samplePatch.bullets = none → (applySlidePatch s samplePatch).bullets = s.bullets) ∧
        (samplePatch.speaker_notes = none →
          (applySlidePatch s samplePatch).speaker_notes = s.speaker_notes) ∧
        (∀ v, samplePatch.title = some v → (applySlidePatch s samplePatch).title = v) ∧
        (∀ v, samplePatch.bullets = some v → (applySlidePatch s samplePatch).bullets = v) ∧
        (∀ v, samplePatch.speaker_notes = some v →
          (applySlidePatch s samplePatch).speaker_notes = v)) :=
  c10_update_slide_frame THEMES sampleStore "p1" sampleRecord 0 samplePatch 7 rfl
    (by decide)
